import Mathlib

/-!
Verification of the multi-room quiz orchestration engine of `src/main.py`.

The in-memory session storage of the bot is a collection of module-level
Python dictionaries (`waiting_rooms`, `active_quizzes`, `countdown_jobs`,
`user_stats`, `streak_data`, lines 52-60).  We embed them as association
lists keyed by the chat or user identifier, and the event handlers
(`start_quiz_in_group`, `quickquiz`, `ready_handler`, `start_countdown`,
`start_quiz`, `send_question`, `reveal_answer`, `answer_handler`,
`show_leaderboard`) as pure state-transition functions.  Outbound transport
messages and database writes are collected as explicit emission/effect
lists; logging calls are elided.  The host runtime (python-telegram-bot on
asyncio) runs handlers cooperatively, so each handler body between two
suspension points is embedded as one atomic transition.
-/

namespace QuizBot

/-! ### Association lists, modelling Python dictionaries -/

/-- Lookup of a key, modelling Python `d[k]` / `k in d` / `d.get(k)`. -/
def alistLookup {κ α : Type} [DecidableEq κ] (k : κ) : List (κ × α) → Option α
  | [] => none
  | (k', v) :: rest => if k' = k then some v else alistLookup k rest

/-- Assignment `d[k] = v`: replaces the binding in place, or appends it
(Python dictionaries keep insertion order). -/
def alistInsert {κ α : Type} [DecidableEq κ] (k : κ) (v : α) : List (κ × α) → List (κ × α)
  | [] => [(k, v)]
  | (k', v') :: rest => if k' = k then (k, v) :: rest else (k', v') :: alistInsert k v rest

/-- Deletion `del d[k]` / `d.pop(k)`: dictionary keys are unique, so removing
the first binding is exact. -/
def alistErase {κ α : Type} [DecidableEq κ] (k : κ) : List (κ × α) → List (κ × α)
  | [] => []
  | (k', v') :: rest => if k' = k then rest else (k', v') :: alistErase k rest

/-- Python `d.get(k, dflt)`. -/
def alistGetD {κ α : Type} [DecidableEq κ] (k : κ) (dflt : α) (l : List (κ × α)) : α :=
  (alistLookup k l).getD dflt

/-- Python set union `a |= b`, with the left operand's elements kept first. -/
def setUnion (a b : List Nat) : List Nat :=
  a ++ b.filter (fun x => decide (x ∉ a))

/-! ### Data model -/

/-- A quiz question (`{"text": ..., "options": [...], "answer": correct_idx}`,
as built at lines 201-205 and in the built-in question lists). -/
structure Question where
  text : String
  options : List String
  answer : Nat
deriving DecidableEq

/-- A waiting-room session, the dictionary stored in `waiting_rooms[chat_id]`
(lines 303-311; the quickquiz/dailychallenge/animequiz variants add only
cosmetic extra keys such as `category`). -/
structure Room where
  quiz_id : String
  ready_users : List Nat
  scores : List (Nat × Nat)
  answered : List (Nat × List Nat)
  questions : List Question
  creator : Nat
  message_id : Nat
deriving DecidableEq

/-- A running-quiz session: `active_quizzes[chat_id] = {**room, "current_q": 0,
"started": True, "message_ids": []}` (lines 402-407). -/
structure RunQuiz extends Room where
  current_q : Nat
  started : Bool
  message_ids : List Nat
deriving DecidableEq

/-- Per-user statistics dictionary, as created by the default initialiser at
lines 559-570. -/
structure UserStats where
  games_played : Nat
  questions_answered : Nat
  correct_answers : Nat
  quizzes_created : Nat
  best_streak : Nat
  current_streak : Nat
  achievements : List String
  total_score : Nat
  rank : String
deriving DecidableEq

/-- The fresh `user_stats[user_id]` dictionary (lines 559-570). -/
def defaultUserStats : UserStats :=
  { games_played := 0, questions_answered := 0, correct_answers := 0,
    quizzes_created := 0, best_streak := 0, current_streak := 0,
    achievements := [], total_score := 0, rank := "🥉 Bronze" }

/-- Per-user streak dictionary (`streak_data[user_id]`, line 581). -/
structure StreakData where
  current : Nat
  best : Nat
  last_date : Option String
deriving DecidableEq

/-- The fresh `streak_data[user_id]` dictionary
(`{"current": 0, "best": 0, "last_date": None}`, line 581). -/
def defaultStreak : StreakData := { current := 0, best := 0, last_date := none }

/-- The bot's mutable module-level session storage (lines 52-60).  The
`countdown_jobs` dictionary maps a chat to `True` while a countdown task is
in flight, so only its key set matters. -/
structure BotState where
  waiting_rooms : List (Int × Room)
  active_quizzes : List (Int × RunQuiz)
  countdown_jobs : List Int
  user_stats : List (Nat × UserStats)
  streak_data : List (Nat × StreakData)
deriving DecidableEq

/-! ### Handler results and outbound effects -/

/-- Outcome reported by `answer_handler` through `query.answer` (the
`indexError` case is the uncaught `IndexError` raised by
`quiz["questions"][q_idx]` on an out-of-range index at line 555). -/
inductive AnswerResult where
  | notActive
  | alreadyAnswered
  | answered (correct : Bool)
  | indexError
deriving DecidableEq

/-- Outcome of `start_quiz_in_group`. -/
inductive StartResult where
  | notFound
  | alreadyActive
  | created
deriving DecidableEq

/-- Outcome reported by `ready_handler`; `started` records whether this event
spawned the countdown task (line 358). -/
inductive ReadyResult where
  | notActive
  | alreadyReady
  | ready (count : Nat) (started : Bool)
deriving DecidableEq

/-- Outbound transport messages of the quiz run (message formatting and the
transient per-answer feedback are presentational and elided; the
`leaderboard` emission carries the ranked, truncated score table instead of
its Markdown rendering). -/
inductive Emission where
  | editCorrect (chat : Int) (msg : Nat) (correctOption : String)
  | nextPlaceholder (chat : Int)
  | removePlaceholder (chat : Int)
  | questionMsg (chat : Int) (q : Nat)
  | startMsg (chat : Int)
  | leaderboard (chat : Int) (ranking : List (String × Nat))
deriving DecidableEq

/-- Database writes issued by `show_leaderboard` (lines 671-698):
`DatabaseService.update_user_stats`, `DatabaseService.record_game_session`
and `DatabaseService.update_group_user_stats`, with their numeric
arguments. -/
inductive PersistEffect where
  | updateStats (user games questions correct score : Nat) (name : String)
  | recordSession (user : Nat) (quizId : String) (chat : Int) (score totalQ correct : Nat)
  | groupStats (chat : Int) (user games questions correct score : Nat)
deriving DecidableEq

/-! ### Scoring, streaks, achievements -/

/-- The achievement milestone chain of `answer_handler` (lines 589-595):
evaluated on the streak value just after the increment, each named
achievement appended at most once, via an `if`/`elif` chain on the exact
values 5, 10 and 25. -/
def addMilestones (streak : Nat) (ach : List String) : List String :=
  if streak = 5 ∧ "🔥 5 Streak" ∉ ach then ach ++ ["🔥 5 Streak"]
  else if streak = 10 ∧ "🌟 10 Streak Master" ∉ ach then ach ++ ["🌟 10 Streak Master"]
  else if streak = 25 ∧ "💎 25 Streak Legend" ∉ ach then ach ++ ["💎 25 Streak Legend"]
  else ach

/-- Shallow embedding of `answer_handler` (lines 524-620).  The callback data
has already been parsed into `q_idx` and `selected_idx` (lines 528-536).
Order of the source: active check (538), already-answered check against
`quiz["answered"].get(q_idx, set())` (545), ledger record (550-552), then
`quiz["questions"][q_idx]` (555; an out-of-range index raises after the
ledger write), correctness, stats defaulting (559-570), and the
scoring/streak/achievement updates (572-599). -/
def answer_handler (st : BotState) (chat_id : Int) (user_id q_idx selected_idx : Nat) :
    BotState × AnswerResult :=
  match alistLookup chat_id st.active_quizzes with
  | none => (st, .notActive)
  | some quiz =>
    if user_id ∈ alistGetD q_idx [] quiz.answered then (st, .alreadyAnswered)
    else
      let answered₁ := alistInsert q_idx (alistGetD q_idx [] quiz.answered ++ [user_id]) quiz.answered
      let quiz₁ : RunQuiz := { quiz with answered := answered₁ }
      match quiz.questions[q_idx]? with
      | none =>
        ({ st with active_quizzes := alistInsert chat_id quiz₁ st.active_quizzes }, .indexError)
      | some question =>
        let stats₀ := alistGetD user_id defaultUserStats st.user_stats
        let stats₁ := { stats₀ with questions_answered := stats₀.questions_answered + 1 }
        if selected_idx = question.answer then
          let scores₂ := alistInsert user_id (alistGetD user_id 0 quiz₁.scores + 1) quiz₁.scores
          let quiz₂ := { quiz₁ with scores := scores₂ }
          let stats₂ := { stats₁ with
            correct_answers := stats₁.correct_answers + 1,
            total_score := stats₁.total_score + 1 }
          let sd₀ := alistGetD user_id defaultStreak st.streak_data
          let cur := sd₀.current + 1
          let best' := if sd₀.best < cur then cur else sd₀.best
          let stats₃ := if sd₀.best < cur then { stats₂ with best_streak := best' } else stats₂
          let stats₄ := { stats₃ with achievements := addMilestones cur stats₃.achievements }
          ({ st with
              active_quizzes := alistInsert chat_id quiz₂ st.active_quizzes,
              user_stats := alistInsert user_id stats₄ st.user_stats,
              streak_data := alistInsert user_id { sd₀ with current := cur, best := best' } st.streak_data },
           .answered true)
        else
          let sd' := match alistLookup user_id st.streak_data with
            | none => st.streak_data
            | some sd => alistInsert user_id { sd with current := 0 } st.streak_data
          ({ st with
              active_quizzes := alistInsert chat_id quiz₁ st.active_quizzes,
              user_stats := alistInsert user_id stats₁ st.user_stats,
              streak_data := sd' },
           .answered false)

/-! ### Observation helpers -/

/-- The answered-set of question `q` in the running session of `chat_id`
(`active_quizzes[chat_id]["answered"].get(q, set())`). -/
def sessionLedger (st : BotState) (chat_id : Int) (q : Nat) : List Nat :=
  match alistLookup chat_id st.active_quizzes with
  | none => []
  | some quiz => alistGetD q [] quiz.answered

/-- The session score of a user
(`active_quizzes[chat_id]["scores"].get(user, 0)`). -/
def sessionScore (st : BotState) (chat_id : Int) (user : Nat) : Nat :=
  match alistLookup chat_id st.active_quizzes with
  | none => 0
  | some quiz => alistGetD user 0 quiz.scores

/-- The statistics record of a user (default-constructed when absent, exactly
as the handlers do). -/
def statsOf (st : BotState) (user : Nat) : UserStats :=
  alistGetD user defaultUserStats st.user_stats

/-- The streak record of a user (default-constructed when absent). -/
def streakOf (st : BotState) (user : Nat) : StreakData :=
  alistGetD user defaultStreak st.streak_data

/-! ### Room registry: session creation paths -/

/-- A stored quiz as returned by `DatabaseService.get_quiz`; only the fields
the orchestration core reads. -/
structure QuizData where
  questions : List Question
  creator : Nat
deriving DecidableEq

/-- Shallow embedding of `start_quiz_in_group` (lines 278-311).  `db` is the
external store (`DatabaseService.get_quiz`); `msg_id` is the transport's
identifier for the waiting-room prompt message. -/
def start_quiz_in_group (st : BotState) (chat_id : Int) (quiz_id : String)
    (db : String → Option QuizData) (msg_id : Nat) : BotState × StartResult :=
  match db quiz_id with
  | none => (st, .notFound)
  | some qd =>
    if (alistLookup chat_id st.active_quizzes).isSome
        ∨ (alistLookup chat_id st.waiting_rooms).isSome then
      (st, .alreadyActive)
    else
      let room : Room :=
        { quiz_id := quiz_id, ready_users := [], scores := [], answered := [],
          questions := qd.questions, creator := qd.creator, message_id := msg_id }
      ({ st with waiting_rooms := alistInsert chat_id room st.waiting_rooms }, .created)

/-- Shallow embedding of `quickquiz` (lines 879-924).  The random sampling of
the three questions is external, so the question list is a parameter.  After
the private-chat guard the handler stores `waiting_rooms[chat_id]`
unconditionally: it contains no admission-control check against
`active_quizzes` or `waiting_rooms`. -/
def quickquiz (st : BotState) (chat_id : Int) (isPrivate : Bool) (qs : List Question)
    (creator : Nat) (quiz_id : String) (msg_id : Nat) : BotState :=
  if isPrivate then st
  else
    let room : Room :=
      { quiz_id := quiz_id, ready_users := [], scores := [], answered := [],
        questions := qs, creator := creator, message_id := msg_id }
    { st with waiting_rooms := alistInsert chat_id room st.waiting_rooms }

/-! ### Waiting room and countdown -/

/-- Shallow embedding of `ready_handler` (lines 313-358).  The ready-count
edit of the prompt message (lines 337-350) is presentational and elided; the
returned `started` flag records whether this event claimed the
`countdown_jobs` slot and spawned `start_countdown` (lines 355-358). -/
def ready_handler (st : BotState) (chat_id : Int) (user_id : Nat) (quiz_id : String) :
    BotState × ReadyResult :=
  match alistLookup chat_id st.waiting_rooms with
  | none => (st, .notActive)
  | some room =>
    if room.quiz_id ≠ quiz_id then (st, .notActive)
    else if user_id ∈ room.ready_users then (st, .alreadyReady)
    else
      let room' := { room with
        ready_users := room.ready_users ++ [user_id],
        scores := alistInsert user_id (alistGetD user_id 0 room.scores) room.scores }
      let count := room'.ready_users.length
      let st₁ := { st with waiting_rooms := alistInsert chat_id room' st.waiting_rooms }
      if 2 ≤ count ∧ chat_id ∉ st.countdown_jobs then
        ({ st₁ with countdown_jobs := chat_id :: st₁.countdown_jobs }, .ready count true)
      else
        (st₁, .ready count false)

/-- The `finally` block of `start_countdown` (lines 392-395): when the
countdown task ends, by completion or by an exception, the in-flight marker
for the chat is removed from `countdown_jobs`.  Keys are unique (the marker
is only set under a not-in-dictionary guard), so filtering is exact. -/
def countdown_cleanup (st : BotState) (chat_id : Int) : BotState :=
  { st with countdown_jobs := st.countdown_jobs.filter (fun c => decide (c ≠ chat_id)) }

/-- Observable steps of the countdown task: an edit of the prompt to
"Starting quiz in n..." and the final invocation of `start_quiz`. -/
inductive CdEvent where
  | editCount (n : Nat)
  | quizStart
deriving DecidableEq

/-- The loop `for i in range(5, 0, -1)` of `start_countdown` (lines 379-388):
one edit per value of `i`, with a one-second sleep after each.  The loop body
consults neither `waiting_rooms` nor `countdown_jobs`. -/
def countdownLoop : Nat → List CdEvent
  | 0 => []
  | n + 1 => CdEvent.editCount (n + 1) :: countdownLoop n

/-- Trace semantics of `start_countdown` (lines 360-395).  `roomAt k` is the
environment oracle telling whether `chat_id in waiting_rooms` holds at the
task's k-th suspension point (k sleeps after entry); the registry may be
mutated concurrently by other handlers between suspension points.  The task
checks room existence once, on entry (line 362), emits the extra "in 5" edit
of line 370, runs the loop, and after the fifth sleep invokes `start_quiz`
(line 391) unconditionally — `start_quiz` performs its own existence check.
The cleanup of the `countdown_jobs` marker is `countdown_cleanup`. -/
def start_countdown (roomAt : Nat → Bool) : List CdEvent :=
  if roomAt 0 then CdEvent.editCount 5 :: (countdownLoop 5 ++ [CdEvent.quizStart])
  else []

/-! ### Quiz run -/

/-- Shallow embedding of `send_question` (lines 428-458): sends the current
question (message id `fresh_q` assigned by the transport), records it in
`message_ids`, and schedules the 20-second reveal timer (an external timer,
delivered later as a `reveal_answer` event).  An out-of-range `current_q`
would raise at `quiz["questions"][q_idx]` before any state change. -/
def send_question (st : BotState) (chat_id : Int) (fresh_q : Nat) : BotState × List Emission :=
  match alistLookup chat_id st.active_quizzes with
  | none => (st, [])
  | some quiz =>
    match quiz.questions[quiz.current_q]? with
    | none => (st, [])
    | some _ =>
      let quiz' := { quiz with message_ids := quiz.message_ids ++ [fresh_q] }
      ({ st with active_quizzes := alistInsert chat_id quiz' st.active_quizzes },
       [Emission.questionMsg chat_id quiz.current_q])

/-- Shallow embedding of `start_quiz` (lines 397-426): snapshots the waiting
room into a running session with `current_q = 0`, deletes the waiting-room
entry, announces the start and sends the first question. -/
def start_quiz (st : BotState) (chat_id : Int) (fresh_q : Nat) : BotState × List Emission :=
  match alistLookup chat_id st.waiting_rooms with
  | none => (st, [])
  | some room =>
    let quiz : RunQuiz := { toRoom := room, current_q := 0, started := true, message_ids := [] }
    let st₁ := { st with
      active_quizzes := alistInsert chat_id quiz st.active_quizzes,
      waiting_rooms := alistErase chat_id st.waiting_rooms }
    let out := send_question st₁ chat_id fresh_q
    (out.1, Emission.startMsg chat_id :: out.2)

/-! ### Leaderboard compiler -/

/-- The participant computation of `show_leaderboard` (lines 627-630):
`participants = set(); for s in quiz["answered"].values(): participants |= s`. -/
def unionAnswered (l : List (Nat × List Nat)) : List Nat :=
  l.foldl (fun acc p => setUnion acc p.2) []

/-- The set of participants of the final leaderboard: the union of the
answered-sets present in the session's ledger when the quiz completes. -/
def leaderboardParticipants (quiz : RunQuiz) : List Nat :=
  unionAnswered quiz.answered

/-- The `correct_count` computation of the stats loop (lines 665-668). -/
def correctCount (quiz : RunQuiz) (u : Nat) : Nat :=
  ((List.range quiz.questions.length).filter
    (fun q => decide (u ∈ alistGetD q [] quiz.answered ∧ 0 < alistGetD u 0 quiz.scores))).length

/-- Stable descending insertion by score, the behaviour of
`scores.sort(key=lambda x: x[1], reverse=True)` (line 644): Python's sort is
stable, so entries keep their relative order within equal scores. -/
def insertDesc (x : String × Nat) : List (String × Nat) → List (String × Nat)
  | [] => [x]
  | y :: ys => if y.2 < x.2 then x :: y :: ys else y :: insertDesc x ys

/-- Stable sort, descending by score. -/
def sortDesc : List (String × Nat) → List (String × Nat)
  | [] => []
  | x :: xs => insertDesc x (sortDesc xs)

/-- The string-valued keys of a running-session dictionary that the stats
loop could read: the session dictionaries built at lines 303-311, 914-924,
987-998 and 1214-1222 store the quiz identifier under `"quiz_id"` and define
no key `"id"`. -/
def sessionStrKeys (quiz : RunQuiz) : List (String × String) :=
  [("quiz_id", quiz.quiz_id)]

/-- One iteration of the per-participant stats loop of `show_leaderboard`
(lines 658-702).  The whole body is inside `try: ... except Exception:
continue`.  If the identity lookup (`context.bot.get_chat`, line 660) fails,
nothing is persisted for this user.  Otherwise `update_user_stats` runs
(line 671); then `record_game_session` is called with
`quiz_id=quiz["id"]` (line 683) — a dictionary subscript: if the session has
no key `"id"`, it raises `KeyError`, the blanket `except` catches it, and
neither the game-session record nor the group-stats update (line 693)
happens for this user. -/
def statsLoopUser (idf : Nat → Option String) (quiz : RunQuiz) (chat_id : Int) (u : Nat) :
    List PersistEffect :=
  match idf u with
  | none => []
  | some name =>
    let user_score := alistGetD u 0 quiz.scores
    let cc := correctCount quiz u
    let upd := PersistEffect.updateStats u 1 quiz.questions.length cc user_score name
    match alistLookup "id" (sessionStrKeys quiz) with
    | none => [upd]
    | some qid =>
      upd :: PersistEffect.recordSession u qid chat_id user_score quiz.questions.length cc ::
        (if chat_id < 0 then
          [PersistEffect.groupStats chat_id u 1 quiz.questions.length cc user_score]
        else [])

/-- Shallow embedding of `show_leaderboard` (lines 622-721).  Pops the
session from `active_quizzes` (line 623), computes the participants, builds
the printed ranking from the participants whose identity lookup `idf`
succeeds (lines 633-641), sorts it descending by score and emits the top 10
(lines 644-655), then runs the per-participant stats-persistence loop.  The
creator attribution and signature lines are presentational and elided. -/
def show_leaderboard (st : BotState) (chat_id : Int) (idf : Nat → Option String) :
    BotState × List Emission × List PersistEffect :=
  match alistLookup chat_id st.active_quizzes with
  | none => (st, [], [])
  | some quiz =>
    let st₁ := { st with active_quizzes := alistErase chat_id st.active_quizzes }
    let parts := leaderboardParticipants quiz
    let entries := parts.filterMap
      (fun u => (idf u).map (fun name => (name, alistGetD u 0 quiz.scores)))
    let ranking := sortDesc entries
    (st₁, [Emission.leaderboard chat_id (ranking.take 10)],
     (parts.map (statsLoopUser idf quiz chat_id)).flatten)

/-- Shallow embedding of `reveal_answer` (lines 465-522).  Guards: session
existence (line 467) and the staleness check `current_q != q_idx` (line 472)
— both return with no state change and no emission (the warnings are log
lines only).  On success it edits the question message to show the correct
option (lines 480-488; `msg_id` is the question message's identifier).  If
questions remain it clears the whole answered ledger (line 493), shows and
later removes a placeholder, advances `current_q` (line 517) and sends the
next question (message id `fresh_q`); otherwise it hands over to
`show_leaderboard`. -/
def reveal_answer (st : BotState) (chat_id : Int) (q_idx msg_id fresh_q : Nat)
    (idf : Nat → Option String) : BotState × List Emission × List PersistEffect :=
  match alistLookup chat_id st.active_quizzes with
  | none => (st, [], [])
  | some quiz =>
    if quiz.current_q ≠ q_idx then (st, [], [])
    else
      match quiz.questions[q_idx]? with
      | none => (st, [], [])
      | some question =>
        let e₀ := Emission.editCorrect chat_id msg_id (question.options.getD question.answer "")
        if q_idx + 1 < quiz.questions.length then
          let quiz₂ := { quiz with answered := [], current_q := q_idx + 1 }
          let st₂ := { st with active_quizzes := alistInsert chat_id quiz₂ st.active_quizzes }
          let out := send_question st₂ chat_id fresh_q
          (out.1,
           e₀ :: Emission.nextPlaceholder chat_id :: Emission.removePlaceholder chat_id :: out.2,
           [])
        else
          let out := show_leaderboard st chat_id idf
          (out.1, e₀ :: out.2.1, out.2.2)

/-! ### Ready-event traces (for the countdown-at-most-once property) -/

/-- An inbound `ReadyPressed` event. -/
structure ReadyEvent where
  chat : Int
  user : Nat
  quiz : String
deriving DecidableEq

/-- Whether a `ready_handler` outcome spawned a countdown task. -/
def startedOf : ReadyResult → Bool
  | .ready _ s => s
  | _ => false

/-- Contribution of one event to the countdown-start count for chat `c`. -/
def startsOf (c : Int) (e : ReadyEvent) (r : ReadyResult) : Nat :=
  if e.chat = c ∧ startedOf r = true then 1 else 0

/-- Number of countdown tasks spawned for chat `c` while processing a
sequence of ready events from state `st`. -/
def countStartsFor (c : Int) : BotState → List ReadyEvent → Nat
  | _, [] => 0
  | st, e :: evs =>
    let out := ready_handler st e.chat e.user e.quiz
    startsOf c e out.2 + countStartsFor c out.1 evs

/-! ### Concrete fixtures, used by witnesses and counterexamples -/

/-- The empty in-memory session storage, the state at process start. -/
def emptyState : BotState :=
  { waiting_rooms := [], active_quizzes := [], countdown_jobs := [],
    user_stats := [], streak_data := [] }

/-- A sample question (from the `quickquiz` built-in list, line 887). -/
def q0 : Question :=
  { text := "What is the capital of France?",
    options := ["London", "Paris", "Berlin", "Madrid"], answer := 1 }

/-- A second sample question (line 888). -/
def q1 : Question :=
  { text := "Which planet is known as the Red Planet?",
    options := ["Venus", "Mars", "Jupiter", "Saturn"], answer := 1 }

/-- A running two-question quiz in group chat `-50` with players 11 and 22,
before any answer. -/
def demoQuiz : RunQuiz :=
  { quiz_id := "424242", ready_users := [11, 22], scores := [(11, 0), (22, 0)],
    answered := [], questions := [q0, q1], creator := 7, message_id := 100,
    current_q := 0, started := true, message_ids := [101] }

/-- Session storage holding only `demoQuiz`. -/
def demoState : BotState :=
  { waiting_rooms := [], active_quizzes := [(-50, demoQuiz)], countdown_jobs := [],
    user_stats := [], streak_data := [] }

/-- An identity oracle that resolves every user id to its decimal string. -/
def idNum : Nat → Option String := fun u => some (Nat.repr u)

/-- Pipeline step 1: user 11 answers question 0 correctly. -/
def pipeState1 : BotState := (answer_handler demoState (-50) 11 0 1).1

/-- Pipeline step 2: the 20-second timer fires and `reveal_answer` advances
the session to question 1, clearing the whole answered ledger. -/
def pipeState2 : BotState := (reveal_answer pipeState1 (-50) 0 101 103 idNum).1

/-- Pipeline step 3: user 22 answers question 1 (incorrectly). -/
def pipeState3 : BotState := (answer_handler pipeState2 (-50) 22 1 0).1

/-- A five-question running quiz for the streak scenario (user 33). -/
def streakQuiz : RunQuiz :=
  { quiz_id := "555", ready_users := [33, 44], scores := [(33, 0), (44, 0)],
    answered := [], questions := [q0, q0, q0, q0, q0], creator := 7, message_id := 200,
    current_q := 0, started := true, message_ids := [] }

/-- Session storage holding only `streakQuiz`. -/
def streakState : BotState :=
  { waiting_rooms := [], active_quizzes := [(-60, streakQuiz)], countdown_jobs := [],
    user_stats := [], streak_data := [] }

/-- User 33 answers questions 0..4 correctly in order: five consecutive
correct answers. -/
def streakRun : BotState :=
  (List.range 5).foldl (fun s i => (answer_handler s (-60) 33 i 1).1) streakState

/-- A completed session whose ledger still holds answers of users 11 and 22
(chat `-50`), used to evaluate the leaderboard's persistence loop. -/
def doneQuiz : RunQuiz :=
  { quiz_id := "777777", ready_users := [11, 22], scores := [(11, 2), (22, 0)],
    answered := [(1, [11, 22])], questions := [q0, q1], creator := 7, message_id := 300,
    current_q := 1, started := true, message_ids := [301, 302] }

/-- Session storage holding only `doneQuiz`. -/
def doneState : BotState :=
  { waiting_rooms := [], active_quizzes := [(-50, doneQuiz)], countdown_jobs := [],
    user_stats := [], streak_data := [] }

/-- The running session left in the storage after pipeline step 3 (its
answered ledger holds only the entries recorded since the last clear). -/
def pipeFinalQuiz : RunQuiz :=
  (alistLookup (-50) pipeState3.active_quizzes).getD demoQuiz

/-- A waiting room in chat `-70` with one ready player. -/
def waitRoom : Room :=
  { quiz_id := "424242", ready_users := [11], scores := [(11, 0)], answered := [],
    questions := [q0, q1], creator := 7, message_id := 100 }

/-- Session storage holding only the waiting room `waitRoom`, no countdown in
flight. -/
def waitState : BotState :=
  { waiting_rooms := [(-70, waitRoom)], active_quizzes := [], countdown_jobs := [],
    user_stats := [], streak_data := [] }

/-- The same waiting room with a countdown already in flight for chat `-70`. -/
def inflightState : BotState :=
  { waiting_rooms := [(-70, waitRoom)], active_quizzes := [], countdown_jobs := [-70],
    user_stats := [], streak_data := [] }

/-- Recogniser for `record_game_session` effects. -/
def isRecordSession : PersistEffect → Bool
  | .recordSession .. => true
  | _ => false

/-- Recogniser for `update_user_stats` effects. -/
def isUpdateStats : PersistEffect → Bool
  | .updateStats .. => true
  | _ => false

/-! ### Basic association-list lemmas -/

theorem alistLookup_insert {κ α : Type} [DecidableEq κ] (k : κ) (v : α) (l : List (κ × α)) :
    alistLookup k (alistInsert k v l) = some v := by
  induction l with
  | nil => simp [alistInsert, alistLookup]
  | cons p rest ih =>
    obtain ⟨k', v'⟩ := p
    by_cases h : k' = k <;> simp [alistInsert, alistLookup, h, ih]

theorem alistGetD_insert {κ α : Type} [DecidableEq κ] (k : κ) (d v : α) (l : List (κ × α)) :
    alistGetD k d (alistInsert k v l) = v := by
  simp [alistGetD, alistLookup_insert]

/-! ### Behaviour of the answer handler -/

theorem answer_handler_already (st : BotState) (c : Int) (u q sel : Nat) (quiz : RunQuiz)
    (hl : alistLookup c st.active_quizzes = some quiz)
    (hu : u ∈ alistGetD q [] quiz.answered) :
    answer_handler st c u q sel = (st, .alreadyAnswered) := by
  simp [answer_handler, hl, hu]

theorem answer_ledger_after (st : BotState) (c : Int) (u q sel : Nat)
    (quiz : RunQuiz) (question : Question)
    (hl : alistLookup c st.active_quizzes = some quiz)
    (hu : u ∉ alistGetD q [] quiz.answered)
    (hq : quiz.questions[q]? = some question) :
    sessionLedger (answer_handler st c u q sel).1 c q = alistGetD q [] quiz.answered ++ [u] := by
  by_cases hsel : sel = question.answer <;>
    simp [answer_handler, sessionLedger, hl, hu, hq, hsel, alistLookup_insert, alistGetD_insert]

theorem answer_lookup_after (st : BotState) (c : Int) (u q sel : Nat)
    (quiz : RunQuiz) (question : Question)
    (hl : alistLookup c st.active_quizzes = some quiz)
    (hu : u ∉ alistGetD q [] quiz.answered)
    (hq : quiz.questions[q]? = some question) :
    ∃ quiz', alistLookup c (answer_handler st c u q sel).1.active_quizzes = some quiz'
      ∧ u ∈ alistGetD q [] quiz'.answered := by
  by_cases hsel : sel = question.answer <;>
    simp [answer_handler, hl, hu, hq, hsel] <;>
    exact ⟨_, alistLookup_insert _ _ _, by simp [alistGetD_insert]⟩

theorem answer_result (st : BotState) (c : Int) (u q sel : Nat)
    (quiz : RunQuiz) (question : Question)
    (hl : alistLookup c st.active_quizzes = some quiz)
    (hu : u ∉ alistGetD q [] quiz.answered)
    (hq : quiz.questions[q]? = some question) :
    (answer_handler st c u q sel).2 = .answered (decide (sel = question.answer)) := by
  by_cases hsel : sel = question.answer <;>
    simp [answer_handler, hl, hu, hq, hsel]

theorem answer_score_correct (st : BotState) (c : Int) (u q sel : Nat)
    (quiz : RunQuiz) (question : Question)
    (hl : alistLookup c st.active_quizzes = some quiz)
    (hu : u ∉ alistGetD q [] quiz.answered)
    (hq : quiz.questions[q]? = some question)
    (hsel : sel = question.answer) :
    sessionScore (answer_handler st c u q sel).1 c u = alistGetD u 0 quiz.scores + 1 := by
  simp [answer_handler, sessionScore, hl, hu, hq, hsel, alistLookup_insert, alistGetD_insert]

theorem answer_score_incorrect (st : BotState) (c : Int) (u q sel : Nat)
    (quiz : RunQuiz) (question : Question)
    (hl : alistLookup c st.active_quizzes = some quiz)
    (hu : u ∉ alistGetD q [] quiz.answered)
    (hq : quiz.questions[q]? = some question)
    (hsel : sel ≠ question.answer) :
    sessionScore (answer_handler st c u q sel).1 c u = alistGetD u 0 quiz.scores := by
  simp [answer_handler, sessionScore, hl, hu, hq, hsel, alistLookup_insert, alistGetD_insert]

theorem answer_stats_qa (st : BotState) (c : Int) (u q sel : Nat)
    (quiz : RunQuiz) (question : Question)
    (hl : alistLookup c st.active_quizzes = some quiz)
    (hu : u ∉ alistGetD q [] quiz.answered)
    (hq : quiz.questions[q]? = some question) :
    (statsOf (answer_handler st c u q sel).1 u).questions_answered
      = (statsOf st u).questions_answered + 1 := by
  by_cases hsel : sel = question.answer
  · simp [answer_handler, statsOf, hl, hu, hq, hsel, alistGetD_insert]
    split <;> simp
  · simp [answer_handler, statsOf, hl, hu, hq, hsel, alistGetD_insert]

theorem answer_streak_correct (st : BotState) (c : Int) (u q sel : Nat)
    (quiz : RunQuiz) (question : Question)
    (hl : alistLookup c st.active_quizzes = some quiz)
    (hu : u ∉ alistGetD q [] quiz.answered)
    (hq : quiz.questions[q]? = some question)
    (hsel : sel = question.answer) :
    (streakOf (answer_handler st c u q sel).1 u).current = (streakOf st u).current + 1
    ∧ (streakOf (answer_handler st c u q sel).1 u).best
        = max (streakOf st u).best ((streakOf st u).current + 1)
    ∧ (streakOf (answer_handler st c u q sel).1 u).last_date = (streakOf st u).last_date := by
  simp only [answer_handler, streakOf, hl, hu, hq, hsel]
  simp [alistGetD_insert]
  split_ifs <;> omega

theorem answer_ach_correct (st : BotState) (c : Int) (u q sel : Nat)
    (quiz : RunQuiz) (question : Question)
    (hl : alistLookup c st.active_quizzes = some quiz)
    (hu : u ∉ alistGetD q [] quiz.answered)
    (hq : quiz.questions[q]? = some question)
    (hsel : sel = question.answer) :
    (statsOf (answer_handler st c u q sel).1 u).achievements
      = addMilestones ((streakOf st u).current + 1) (statsOf st u).achievements := by
  simp [answer_handler, statsOf, streakOf, hl, hu, hq, hsel, alistGetD_insert]
  split <;> simp

theorem answer_streak_incorrect (st : BotState) (c : Int) (u q sel : Nat)
    (quiz : RunQuiz) (question : Question)
    (hl : alistLookup c st.active_quizzes = some quiz)
    (hu : u ∉ alistGetD q [] quiz.answered)
    (hq : quiz.questions[q]? = some question)
    (hsel : sel ≠ question.answer) :
    (streakOf (answer_handler st c u q sel).1 u).current = 0
    ∧ (streakOf (answer_handler st c u q sel).1 u).best = (streakOf st u).best := by
  simp only [answer_handler, streakOf, hl, hu, hq, hsel]
  cases hsd : alistLookup u st.streak_data <;>
    simp [hsd, alistGetD, alistLookup_insert, defaultStreak]

theorem answer_ach_incorrect (st : BotState) (c : Int) (u q sel : Nat)
    (quiz : RunQuiz) (question : Question)
    (hl : alistLookup c st.active_quizzes = some quiz)
    (hu : u ∉ alistGetD q [] quiz.answered)
    (hq : quiz.questions[q]? = some question)
    (hsel : sel ≠ question.answer) :
    (statsOf (answer_handler st c u q sel).1 u).achievements
      = (statsOf st u).achievements := by
  simp [answer_handler, statsOf, hl, hu, hq, hsel, alistGetD_insert]

/-! ### Milestone table -/

theorem addMilestones_not_milestone (n : Nat) (ach : List String)
    (h : ¬(n = 5 ∨ n = 10 ∨ n = 25)) : addMilestones n ach = ach := by
  push_neg at h
  simp [addMilestones, h.1, h.2.1, h.2.2]

theorem addMilestones_five_mem (ach : List String) (h : "🔥 5 Streak" ∈ ach) :
    addMilestones 5 ach = ach := by
  simp [addMilestones, h]

theorem addMilestones_five_new (ach : List String) (h : "🔥 5 Streak" ∉ ach) :
    addMilestones 5 ach = ach ++ ["🔥 5 Streak"] := by
  simp [addMilestones, h]

/-! ### Union of the answered-sets -/

theorem mem_setUnion (u : Nat) (a b : List Nat) : u ∈ setUnion a b ↔ u ∈ a ∨ u ∈ b := by
  simp only [setUnion, List.mem_append, List.mem_filter, decide_eq_true_eq]
  tauto

theorem mem_unionAnswered_fold (l : List (Nat × List Nat)) (acc : List Nat) (u : Nat) :
    u ∈ l.foldl (fun acc p => setUnion acc p.2) acc ↔ u ∈ acc ∨ ∃ p ∈ l, u ∈ p.2 := by
  induction l generalizing acc with
  | nil => simp
  | cons p rest ih =>
    simp only [List.foldl_cons, ih, mem_setUnion, List.mem_cons]
    constructor
    · rintro (⟨h | h⟩ | ⟨r, hr, hu⟩)
      · exact Or.inl h
      · exact Or.inr ⟨p, Or.inl rfl, h⟩
      · exact Or.inr ⟨r, Or.inr hr, hu⟩
    · rintro (h | ⟨r, rfl | hr, hu⟩)
      · exact Or.inl (Or.inl h)
      · exact Or.inl (Or.inr hu)
      · exact Or.inr ⟨r, hr, hu⟩

/-! ### Countdown in-flight marker -/

theorem ready_jobs_mono (st : BotState) (ch : Int) (u : Nat) (qid : String) (c : Int)
    (h : c ∈ st.countdown_jobs) :
    c ∈ (ready_handler st ch u qid).1.countdown_jobs := by
  unfold ready_handler
  cases alistLookup ch st.waiting_rooms with
  | none => exact h
  | some room =>
    dsimp only
    split_ifs <;> simp_all

theorem ready_inflight_no_start (st : BotState) (ch : Int) (u : Nat) (qid : String)
    (h : ch ∈ st.countdown_jobs) :
    startedOf (ready_handler st ch u qid).2 = false
    ∧ (ready_handler st ch u qid).1.countdown_jobs = st.countdown_jobs := by
  unfold ready_handler
  cases alistLookup ch st.waiting_rooms with
  | none => exact ⟨rfl, rfl⟩
  | some room =>
    dsimp only
    split_ifs with h1 h2 h3
    · exact ⟨rfl, rfl⟩
    · exact ⟨rfl, rfl⟩
    · exact absurd h h3.2
    · exact ⟨rfl, rfl⟩

theorem ready_start_sets_job (st : BotState) (ch : Int) (u : Nat) (qid : String) :
    startedOf (ready_handler st ch u qid).2 = true →
    ch ∈ (ready_handler st ch u qid).1.countdown_jobs := by
  unfold ready_handler
  cases alistLookup ch st.waiting_rooms with
  | none => intro h; exact absurd h (by simp [startedOf])
  | some room =>
    dsimp only
    split_ifs
    · intro h; exact absurd h (by simp [startedOf])
    · intro h; exact absurd h (by simp [startedOf])
    · intro _; simp
    · intro h; exact absurd h (by simp [startedOf])

theorem countStartsFor_zero (c : Int) (st : BotState) (evs : List ReadyEvent)
    (h : c ∈ st.countdown_jobs) : countStartsFor c st evs = 0 := by
  induction evs generalizing st with
  | nil => rfl
  | cons e evs ih =>
    unfold countStartsFor
    dsimp only
    have hmono := ready_jobs_mono st e.chat e.user e.quiz c h
    by_cases hc : e.chat = c
    · have hns := (ready_inflight_no_start st e.chat e.user e.quiz (hc ▸ h)).1
      simp [startsOf, hns, ih _ hmono]
    · simp [startsOf, hc, ih _ hmono]

theorem countStartsFor_le_one (c : Int) (st : BotState) (evs : List ReadyEvent) :
    countStartsFor c st evs ≤ 1 := by
  induction evs generalizing st with
  | nil => simp [countStartsFor]
  | cons e evs ih =>
    unfold countStartsFor
    dsimp only
    by_cases hs : e.chat = c ∧ startedOf (ready_handler st e.chat e.user e.quiz).2 = true
    · obtain ⟨h1, h2⟩ := hs
      have hin := ready_start_sets_job st e.chat e.user e.quiz h2
      rw [h1] at hin
      simp [startsOf, h1, h2, countStartsFor_zero c _ evs hin]
      split <;> simp
    · have h0 : startsOf c e (ready_handler st e.chat e.user e.quiz).2 = 0 := by
        simp only [startsOf, if_neg hs]
      rw [h0]
      simpa using ih (ready_handler st e.chat e.user e.quiz).1

/-! ### Claims -/

/-- C2 (counterexample): `submitAnswer` is not idempotent per (user, question)
across question advances.  User 11 answers question 0 correctly
(`pipeState1`, score 1); `reveal_answer` advances the session and clears the
whole answered ledger (`pipeState2`); a repeat submission by user 11 for the
same question index 0 is then accepted again — not reported as "already
answered" — and raises the score to 2, double-scoring the same question. -/
theorem C2_counterexample :
    11 ∈ sessionLedger pipeState1 (-50) 0
    ∧ sessionScore pipeState2 (-50) 11 = 1
    ∧ (answer_handler pipeState2 (-50) 11 0 1).2 ≠ AnswerResult.alreadyAnswered
    ∧ sessionScore (answer_handler pipeState2 (-50) 11 0 1).1 (-50) 11 = 2 := by
  decide

/-- C2 (amended): `submitAnswer` is idempotent per (user, question) only
while the user's ledger entry for that question survives: a second
submission by the same user for the same question index, with no intervening
question advance, returns an "already answered" result and leaves the whole
bot state unchanged.  (The ledger is cleared when the quiz advances, after
which a repeat submission for the old question index is re-accepted and
re-scored.) -/
theorem C2_second_submission_noop (st : BotState) (c : Int) (u q sel sel' : Nat)
    (quiz : RunQuiz) (question : Question)
    (hl : alistLookup c st.active_quizzes = some quiz)
    (hu : u ∉ alistGetD q [] quiz.answered)
    (hq : quiz.questions[q]? = some question) :
    answer_handler (answer_handler st c u q sel).1 c u q sel'
      = ((answer_handler st c u q sel).1, AnswerResult.alreadyAnswered) := by
  obtain ⟨quiz', hl', hmem⟩ := answer_lookup_after st c u q sel quiz question hl hu hq
  exact answer_handler_already _ c u q sel' quiz' hl' hmem

/-- C2 (witness): user 11 answers question 0 of the demo quiz, then submits
again for question 0 before any reveal; the second call is rejected as
already answered and changes nothing. -/
theorem C2_second_submission_noop_witness :
    answer_handler (answer_handler demoState (-50) 11 0 1).1 (-50) 11 0 2
      = ((answer_handler demoState (-50) 11 0 1).1, AnswerResult.alreadyAnswered) :=
  C2_second_submission_noop demoState (-50) 11 0 1 2 demoQuiz q0 (by rfl) (by decide) (by rfl)

/-- C6: `reveal_answer` invoked when no running session exists for the chat,
or when the session's current question index differs from the reveal's
question index, is a no-op: the state is unchanged and nothing is emitted or
persisted. -/
theorem C6_stale_reveal_noop :
    (∀ (st : BotState) (c : Int) (q m f : Nat) (idf : Nat → Option String),
        alistLookup c st.active_quizzes = none →
        reveal_answer st c q m f idf = (st, [], []))
    ∧ (∀ (st : BotState) (c : Int) (q m f : Nat) (idf : Nat → Option String) (quiz : RunQuiz),
        alistLookup c st.active_quizzes = some quiz →
        quiz.current_q ≠ q →
        reveal_answer st c q m f idf = (st, [], [])) := by
  constructor
  · intro st c q m f idf h
    simp [reveal_answer, h]
  · intro st c q m f idf quiz hl hne
    simp [reveal_answer, hl, hne]

/-- C6 (witness): a reveal for a chat with no running session, and a reveal
for question 1 while the demo session is still on question 0, both leave the
state untouched and emit nothing. -/
theorem C6_stale_reveal_noop_witness :
    reveal_answer emptyState (-50) 0 101 103 idNum = (emptyState, [], [])
    ∧ reveal_answer demoState (-50) 1 101 103 idNum = (demoState, [], []) :=
  ⟨C6_stale_reveal_noop.1 emptyState (-50) 0 101 103 idNum (by rfl),
   C6_stale_reveal_noop.2 demoState (-50) 1 101 103 idNum demoQuiz (by rfl) (by decide)⟩

/-- C7: for a first answer submission by a user on a question of a running
session, the user is recorded in the answer ledger under that question,
correctness is computed against the question's correct index, the user's
session score rises by exactly 1 on a correct answer and is unchanged on an
incorrect one, and the user's questions-answered counter is incremented in
both cases. -/
theorem C7_first_answer_scoring (st : BotState) (c : Int) (u q sel : Nat)
    (quiz : RunQuiz) (question : Question)
    (hl : alistLookup c st.active_quizzes = some quiz)
    (hu : u ∉ alistGetD q [] quiz.answered)
    (hq : quiz.questions[q]? = some question) :
    u ∈ sessionLedger (answer_handler st c u q sel).1 c q
    ∧ (answer_handler st c u q sel).2 = .answered (decide (sel = question.answer))
    ∧ (sel = question.answer →
        sessionScore (answer_handler st c u q sel).1 c u = alistGetD u 0 quiz.scores + 1)
    ∧ (sel ≠ question.answer →
        sessionScore (answer_handler st c u q sel).1 c u = alistGetD u 0 quiz.scores)
    ∧ (statsOf (answer_handler st c u q sel).1 u).questions_answered
        = (statsOf st u).questions_answered + 1 := by
  refine ⟨?_, answer_result st c u q sel quiz question hl hu hq,
    fun hsel => answer_score_correct st c u q sel quiz question hl hu hq hsel,
    fun hsel => answer_score_incorrect st c u q sel quiz question hl hu hq hsel,
    answer_stats_qa st c u q sel quiz question hl hu hq⟩
  rw [answer_ledger_after st c u q sel quiz question hl hu hq]
  simp

/-- C7 (witness): user 11's first answer on question 0 of the demo quiz,
selecting the correct option 1. -/
theorem C7_first_answer_scoring_witness :
    11 ∈ sessionLedger (answer_handler demoState (-50) 11 0 1).1 (-50) 0
    ∧ (answer_handler demoState (-50) 11 0 1).2 = .answered true
    ∧ sessionScore (answer_handler demoState (-50) 11 0 1).1 (-50) 11 = 1
    ∧ (statsOf (answer_handler demoState (-50) 11 0 1).1 11).questions_answered = 1 := by
  have h := C7_first_answer_scoring demoState (-50) 11 0 1 demoQuiz q0
    (by rfl) (by decide) (by rfl)
  exact ⟨h.1, h.2.1, by rw [h.2.2.1 (by rfl)]; decide, by rw [h.2.2.2.2]; decide⟩

/-- C8: the streak and achievement engine.  On a correct answer the current
streak increments by one, the best streak stays the running maximum and the
achievement list changes exactly by the milestone table (which grants the
"5 Streak" / "10 Streak Master" / "25 Streak Legend" achievements only at
the exact streak values 5, 10, 25 and each at most once); on an incorrect
answer the current streak resets to 0, the best streak is kept and no
achievement is removed; and five consecutive correct answers from a fresh
user unlock exactly one "5 Streak" achievement. -/
theorem C8_streaks_and_achievements :
    (∀ (st : BotState) (c : Int) (u q sel : Nat) (quiz : RunQuiz) (question : Question),
        alistLookup c st.active_quizzes = some quiz →
        u ∉ alistGetD q [] quiz.answered →
        quiz.questions[q]? = some question →
        sel = question.answer →
        (streakOf (answer_handler st c u q sel).1 u).current = (streakOf st u).current + 1
        ∧ (streakOf (answer_handler st c u q sel).1 u).best
            = max (streakOf st u).best ((streakOf st u).current + 1)
        ∧ (statsOf (answer_handler st c u q sel).1 u).achievements
            = addMilestones ((streakOf st u).current + 1) (statsOf st u).achievements)
    ∧ (∀ (st : BotState) (c : Int) (u q sel : Nat) (quiz : RunQuiz) (question : Question),
        alistLookup c st.active_quizzes = some quiz →
        u ∉ alistGetD q [] quiz.answered →
        quiz.questions[q]? = some question →
        sel ≠ question.answer →
        (streakOf (answer_handler st c u q sel).1 u).current = 0
        ∧ (streakOf (answer_handler st c u q sel).1 u).best = (streakOf st u).best
        ∧ (statsOf (answer_handler st c u q sel).1 u).achievements
            = (statsOf st u).achievements)
    ∧ (∀ (n : Nat) (ach : List String), ¬(n = 5 ∨ n = 10 ∨ n = 25) → addMilestones n ach = ach)
    ∧ (∀ ach : List String, "🔥 5 Streak" ∈ ach → addMilestones 5 ach = ach)
    ∧ (∀ ach : List String, "🔥 5 Streak" ∉ ach → addMilestones 5 ach = ach ++ ["🔥 5 Streak"])
    ∧ (statsOf streakRun 33).achievements = ["🔥 5 Streak"]
    ∧ (streakOf streakRun 33).current = 5 := by
  refine ⟨?_, ?_, addMilestones_not_milestone, addMilestones_five_mem,
    addMilestones_five_new, by decide, by decide⟩
  · intro st c u q sel quiz question hl hu hq hsel
    obtain ⟨h1, h2, _⟩ := answer_streak_correct st c u q sel quiz question hl hu hq hsel
    exact ⟨h1, h2, answer_ach_correct st c u q sel quiz question hl hu hq hsel⟩
  · intro st c u q sel quiz question hl hu hq hsel
    obtain ⟨h1, h2⟩ := answer_streak_incorrect st c u q sel quiz question hl hu hq hsel
    exact ⟨h1, h2, answer_ach_incorrect st c u q sel quiz question hl hu hq hsel⟩

/-- C8 (witness): user 11's first correct answer on the demo quiz raises the
current streak from 0 to 1, and with a fresh achievement list (streak value
1 is not a milestone) the achievements stay empty. -/
theorem C8_streaks_and_achievements_witness :
    (streakOf (answer_handler demoState (-50) 11 0 1).1 11).current = 1
    ∧ (statsOf (answer_handler demoState (-50) 11 0 1).1 11).achievements = [] := by
  have h := C8_streaks_and_achievements.1 demoState (-50) 11 0 1 demoQuiz q0
    (by rfl) (by decide) (by rfl) (by rfl)
  refine ⟨by rw [h.1]; decide, by rw [h.2.2]; decide⟩

/-- C10: the answer handler performs no staleness check on the question
index.  For a running session, an answer event naming any in-range question
index `q` whose user is not in the ledger entry for `q` is accepted,
recorded in the ledger under `q`, and scored against `questions[q]`'s
correct index — the hypotheses place no constraint whatsoever on the
session's `current_q`, so this holds in particular when `q` differs from the
current question index. -/
theorem C10_no_staleness_check (st : BotState) (c : Int) (u q sel : Nat)
    (quiz : RunQuiz) (question : Question)
    (hl : alistLookup c st.active_quizzes = some quiz)
    (hu : u ∉ alistGetD q [] quiz.answered)
    (hq : quiz.questions[q]? = some question) :
    (answer_handler st c u q sel).2 = .answered (decide (sel = question.answer))
    ∧ u ∈ sessionLedger (answer_handler st c u q sel).1 c q
    ∧ (sel = question.answer →
        sessionScore (answer_handler st c u q sel).1 c u = alistGetD u 0 quiz.scores + 1) := by
  refine ⟨answer_result st c u q sel quiz question hl hu hq, ?_,
    fun hsel => answer_score_correct st c u q sel quiz question hl hu hq hsel⟩
  rw [answer_ledger_after st c u q sel quiz question hl hu hq]
  simp

/-- C10 (witness): the demo session is on question 0, yet a fresh answer by
user 22 naming the stale question index 1 is accepted and recorded under
index 1. -/
theorem C10_no_staleness_check_witness :
    (answer_handler demoState (-50) 22 1 1).2 = .answered true
    ∧ 22 ∈ sessionLedger (answer_handler demoState (-50) 22 1 1).1 (-50) 1
    ∧ demoQuiz.current_q = 0 := by
  have h := C10_no_staleness_check demoState (-50) 22 1 1 demoQuiz q1
    (by rfl) (by decide) (by rfl)
  exact ⟨h.1, h.2.1, by rfl⟩

/-- C1 (counterexample): the admission check is not performed on every
session-creating path.  `demoState` already has a running quiz in chat
`-50`, yet `quickquiz` for the same group chat creates a waiting room
anyway: afterwards the chat holds both an active quiz and a waiting room,
and the session state changed with no already-active rejection. -/
theorem C1_counterexample :
    (alistLookup (-50) (quickquiz demoState (-50) false [q0] 7 "999999" 9).waiting_rooms).isSome
      = true
    ∧ (alistLookup (-50) (quickquiz demoState (-50) false [q0] 7 "999999" 9).active_quizzes).isSome
      = true
    ∧ quickquiz demoState (-50) false [q0] 7 "999999" 9 ≠ demoState := by
  decide

/-- C1 (amended): only the shared-link path checks admission.
`start_quiz_in_group` rejects a start request for a chat that already has a
waiting room or an active quiz with an already-active error and changes no
session state; but `quickquiz` performs no admission check: in a group chat
it always installs a fresh waiting room for the chat (replacing any existing
one) and leaves any active quiz of that chat in place. -/
theorem C1_admission_check :
    (∀ (st : BotState) (c : Int) (qid : String) (db : String → Option QuizData)
        (m : Nat) (qd : QuizData),
        db qid = some qd →
        ((alistLookup c st.active_quizzes).isSome ∨ (alistLookup c st.waiting_rooms).isSome) →
        start_quiz_in_group st c qid db m = (st, .alreadyActive))
    ∧ (∀ (st : BotState) (c : Int) (qs : List Question) (cr : Nat) (qid : String) (m : Nat),
        (alistLookup c (quickquiz st c false qs cr qid m).waiting_rooms).isSome = true
        ∧ (quickquiz st c false qs cr qid m).active_quizzes = st.active_quizzes) := by
  constructor
  · intro st c qid db m qd hdb hex
    simp only [start_quiz_in_group, hdb]
    rw [if_pos hex]
  · intro st c qs cr qid m
    exact ⟨by simp [quickquiz, alistLookup_insert], rfl⟩

/-- C1 (witness): a second shared-link start for chat `-50`, which already
runs the demo quiz, is rejected with no state change; and `quickquiz` for
chat `-50` installs a waiting room while the active quiz stays. -/
theorem C1_admission_check_witness :
    start_quiz_in_group demoState (-50) "zz" (fun _ => some ⟨[q0], 7⟩) 9
      = (demoState, .alreadyActive)
    ∧ (alistLookup (-50) (quickquiz demoState (-50) false [q0] 7 "999999" 9).waiting_rooms).isSome
        = true
    ∧ (quickquiz demoState (-50) false [q0] 7 "999999" 9).active_quizzes
        = demoState.active_quizzes :=
  ⟨C1_admission_check.1 demoState (-50) "zz" (fun _ => some ⟨[q0], 7⟩) 9 ⟨[q0], 7⟩ rfl
      (Or.inl (by decide)),
   C1_admission_check.2 demoState (-50) [q0] 7 "999999" 9⟩

/-- C3 (counterexample): the final leaderboard does not cover every user who
answered at least one question.  User 11 answered question 0 (it is in the
ledger of `pipeState1`), but `reveal_answer` cleared the whole ledger when
advancing, so at completion the participants of the session are just `[22]`:
user 11 is excluded from the final leaderboard, whose only printed row is
user 22 with 0 points. -/
theorem C3_counterexample :
    11 ∈ sessionLedger pipeState1 (-50) 0
    ∧ 11 ∉ leaderboardParticipants pipeFinalQuiz
    ∧ 22 ∈ leaderboardParticipants pipeFinalQuiz
    ∧ (reveal_answer pipeState3 (-50) 1 103 104 idNum).2.1
        = [Emission.editCorrect (-50) 103 "Mars",
           Emission.leaderboard (-50) [("22", 0)]] := by
  decide

/-- C3 (amended): the leaderboard compiler computes the participant set as
the union of the per-question answered-sets present in the session's ledger
at completion time — a user is a participant exactly when some ledger entry
contains it.  Because `reveal_answer` clears the whole ledger at every
question advance, this union covers only answers submitted since the last
advance, not every user who answered at least one question. -/
theorem C3_participants_union (quiz : RunQuiz) (u : Nat) :
    u ∈ leaderboardParticipants quiz ↔ ∃ p ∈ quiz.answered, u ∈ p.2 := by
  simp only [leaderboardParticipants, unionAnswered]
  rw [mem_unionAnswered_fold]
  simp

/-- C9: evaluation of the leaderboard's persistence loop at a concrete
completed session (chat `-50`, participants 11 and 22, every identity lookup
succeeding).  `update_user_stats` deltas are persisted for both
participants, the session is removed from the registry and the descending
ranking is emitted — but no `record_game_session` effect occurs for anyone:
line 683 reads `quiz["id"]`, a key the session dictionaries never define
(the identifier is stored under `"quiz_id"`), so every iteration raises
`KeyError` after the stats update and the blanket `except: continue`
swallows it. -/
theorem C9_game_session_never_recorded :
    (show_leaderboard doneState (-50) idNum).2.2
      = [PersistEffect.updateStats 11 1 2 1 2 "11",
         PersistEffect.updateStats 22 1 2 0 0 "22"]
    ∧ ((show_leaderboard doneState (-50) idNum).2.2).all (fun e => !(isRecordSession e)) = true
    ∧ (show_leaderboard doneState (-50) idNum).2.1
        = [Emission.leaderboard (-50) [("11", 2), ("22", 0)]]
    ∧ alistLookup (-50) (show_leaderboard doneState (-50) idNum).1.active_quizzes = none := by
  decide

/-- C5 (counterexample): the countdown does not re-check the waiting room at
each step.  With the room present at entry but removed during the very first
sleep (`roomAt n = true` only for `n = 0`), the "starting in 1" notification
— four time units after the removal — is still emitted, and the whole trace
is identical to the one where the room survives throughout. -/
theorem C5_counterexample :
    CdEvent.editCount 1 ∈ start_countdown (fun n => decide (n = 0))
    ∧ start_countdown (fun n => decide (n = 0)) = start_countdown (fun _ => true) := by
  decide

/-- C5 (amended): the countdown checks that the waiting room still exists
once, on entry, aborting silently with no emission if it is already gone;
its trace depends only on that entry check, so the "starting in N"
notifications for N = 5,4,3,2,1 (preceded by the initial "in 5" edit) are
emitted at one-unit intervals regardless of later removals; the
Waiting-to-Running transition is invoked only after the last tick, and
`start_quiz` itself is a no-op when the waiting room no longer exists. -/
theorem C5_countdown_trace :
    (∀ roomAt : Nat → Bool, roomAt 0 = false → start_countdown roomAt = [])
    ∧ (∀ roomAt roomAt' : Nat → Bool, roomAt 0 = roomAt' 0 →
        start_countdown roomAt = start_countdown roomAt')
    ∧ (∀ roomAt : Nat → Bool, roomAt 0 = true →
        start_countdown roomAt
          = [CdEvent.editCount 5, CdEvent.editCount 5, CdEvent.editCount 4,
             CdEvent.editCount 3, CdEvent.editCount 2, CdEvent.editCount 1,
             CdEvent.quizStart])
    ∧ (∀ (st : BotState) (c : Int) (f : Nat),
        alistLookup c st.waiting_rooms = none → start_quiz st c f = (st, [])) := by
  refine ⟨?_, ?_, ?_, ?_⟩
  · intro r h
    simp [start_countdown, h]
  · intro r r' h
    simp [start_countdown, h]
  · intro r h
    simp only [start_countdown, h, if_true]
    rfl
  · intro st c f h
    simp [start_quiz, h]

/-- C5 (witness): concrete instances — a countdown whose room is gone at
entry emits nothing; a countdown whose room exists at entry emits the full
trace; `start_quiz` on an empty registry is a no-op. -/
theorem C5_countdown_trace_witness :
    start_countdown (fun _ => false) = []
    ∧ start_countdown (fun _ => true)
        = [CdEvent.editCount 5, CdEvent.editCount 5, CdEvent.editCount 4,
           CdEvent.editCount 3, CdEvent.editCount 2, CdEvent.editCount 1,
           CdEvent.quizStart]
    ∧ start_quiz emptyState (-50) 9 = (emptyState, []) :=
  ⟨C5_countdown_trace.1 (fun _ => false) rfl,
   C5_countdown_trace.2.2.1 (fun _ => true) rfl,
   C5_countdown_trace.2.2.2 emptyState (-50) 9 rfl⟩

/-- C4: the countdown starts at most once per waiting room.  The first ready
event that lifts the ready count to 2 or more while no countdown is in
flight spawns the countdown and sets the in-flight marker; from any state in
which the marker for the chat is set, no sequence of further ready events
spawns another countdown for that chat; along any sequence of ready events
at most one countdown is spawned per chat; and the marker is released when
the countdown task ends. -/
theorem C4_countdown_at_most_once :
    (∀ (st : BotState) (c : Int) (u : Nat) (qid : String) (room : Room),
        alistLookup c st.waiting_rooms = some room →
        room.quiz_id = qid →
        u ∉ room.ready_users →
        1 ≤ room.ready_users.length →
        c ∉ st.countdown_jobs →
        (ready_handler st c u qid).2 = .ready (room.ready_users.length + 1) true
        ∧ c ∈ (ready_handler st c u qid).1.countdown_jobs)
    ∧ (∀ (st : BotState) (c : Int) (evs : List ReadyEvent),
        c ∈ st.countdown_jobs → countStartsFor c st evs = 0)
    ∧ (∀ (st : BotState) (c : Int) (evs : List ReadyEvent), countStartsFor c st evs ≤ 1)
    ∧ (∀ (st : BotState) (c : Int), c ∉ (countdown_cleanup st c).countdown_jobs) := by
  refine ⟨?_, fun st c evs h => countStartsFor_zero c st evs h,
    fun st c evs => countStartsFor_le_one c st evs, ?_⟩
  · intro st c u qid room hl hqid hu hlen hnin
    simp only [ready_handler, hl]
    rw [if_neg (by simp [hqid]), if_neg hu, if_pos ⟨by simp; omega, hnin⟩]
    exact ⟨by simp, by simp⟩
  · intro st c
    simp [countdown_cleanup, List.mem_filter]

/-- C4 (witness): user 22 joining the one-player waiting room of chat `-70`
lifts the count to 2 and spawns the countdown; with the marker already set
no event sequence spawns another; any sequence from `waitState` spawns at
most one; and the cleanup clears the marker. -/
theorem C4_countdown_at_most_once_witness :
    ((ready_handler waitState (-70) 22 "424242").2 = .ready 2 true
      ∧ (-70 : Int) ∈ (ready_handler waitState (-70) 22 "424242").1.countdown_jobs)
    ∧ countStartsFor (-70) inflightState
        [⟨-70, 22, "424242"⟩, ⟨-70, 33, "424242"⟩] = 0
    ∧ countStartsFor (-70) waitState
        [⟨-70, 22, "424242"⟩, ⟨-70, 33, "424242"⟩, ⟨-70, 44, "424242"⟩] ≤ 1
    ∧ (-70 : Int) ∉ (countdown_cleanup inflightState (-70)).countdown_jobs :=
  ⟨C4_countdown_at_most_once.1 waitState (-70) 22 "424242" waitRoom (by rfl) (by rfl)
      (by decide) (by decide) (by decide),
   C4_countdown_at_most_once.2.1 inflightState (-70) _ (by decide),
   C4_countdown_at_most_once.2.2.1 waitState (-70) _,
   C4_countdown_at_most_once.2.2.2 inflightState (-70)⟩

end QuizBot
